import Mathlib

/-!
Shallow embedding of the notification-to-enrichment pipeline of the
Outlook automation repository. Pure control flow of the Python source is
translated into executable Lean definitions; external collaborators
(HTTP transport, Redis, SHA256 hashing, JSON parsing, the LLM providers,
the Celery retry machinery and the SQL store) appear as explicit
environment parameters or as association-list states. Each definition is
named after the Python function or method it embeds.
-/

namespace OutlookAutomater

/-! Cache primitives. Redis get and setex from app/services/cache_service.py,
with the store modelled as an association list where the newest write for a
key shadows older ones (setex overwrites). -/

/-- Embeds CacheService.get on an association-list store: the value for the
first matching key, none when absent. -/
def cacheGet {α : Type} (store : List (String × α)) (key : String) : Option α :=
  (store.find? (fun p => p.1 == key)).map Prod.snd

/-- Embeds CacheService.set via setex: the new binding shadows any older one. -/
def cacheSet {α : Type} (store : List (String × α)) (key : String) (value : α) :
    List (String × α) :=
  (key, value) :: store

/-- Python truthiness on an optional string: a value is kept only when it is
present and non-empty, as in the source tests of the form if result: ... -/
def truthyStr (o : Option String) : Option String :=
  match o with
  | some s => if s == "" then none else some s
  | none => none

/-- Python truthiness on an optional list: kept only when present and
non-empty. -/
def truthyList {α : Type} (o : Option (List α)) : Option (List α) :=
  match o with
  | some l => if l.isEmpty then none else some l
  | none => none

/-! AI Enrichment Engine, from app/services/ai_service.py. The three provider
calls return Option String: none embeds both a failed or timed-out call and a
missing API key, since every exception is caught and turned into None in the
source. The providers are inputs to the model because their content comes from
the network. -/

/-- One suggested action as produced by the action sub-flow. Embeds the dict
built in AIService.generate actions and consumed by the worker. -/
structure ActionJson where
  action : String
  type : String
  priority : String
  due_date : Option String
  reasoning : String
deriving Repr, DecidableEq

/-- Provider results available to the summary chain, in the order the source
tries them: Gemini, then OpenAI, then Claude. -/
structure SummaryProviders where
  gemini : Option String
  openai : Option String
  claude : Option String
deriving Repr, DecidableEq

/-- Provider results available to the action chain, in the order the source
tries them: OpenAI, then Claude, then Gemini. -/
structure ActionProviders where
  openai : Option String
  claude : Option String
  gemini : Option String
deriving Repr, DecidableEq

/-- Python slicing of a string to its first n characters, at the character
level. -/
def strTake (s : String) (n : Nat) : String :=
  { data := s.data.take n }

/-- Python strip: drop whitespace characters from both ends, at the character
level. -/
def strStrip (s : String) : String :=
  { data :=
      ((s.data.dropWhile Char.isWhitespace).reverse.dropWhile
        Char.isWhitespace).reverse }

/-- Embeds AIService fallback summary: first 200 characters of the body,
stripped, with an ellipsis when the body is longer, under two header bullet
lines naming sender and subject. -/
def fallbackSummary (subject sender body : String) : String :=
  let preview0 := strStrip (strTake body 200)
  let preview := if body.length > 200 then preview0 ++ "..." else preview0
  "• Email from " ++ sender ++ "\n• Subject: " ++ subject ++ "\n• " ++ preview

/-- Embeds AIService generate summary: Gemini, then OpenAI, then Claude, then
the rule-based fallback; the first truthy result wins. Returns the summary
and the value recorded in last model used ("gemini", "gpt-4", "claude" or
"fallback" stand for the configured model names). -/
def generateSummary (p : SummaryProviders) (subject sender body : String) :
    String × String :=
  match truthyStr p.gemini with
  | some r => (r, "gemini")
  | none =>
    match truthyStr p.openai with
    | some r => (r, "gpt-4")
    | none =>
      match truthyStr p.claude with
      | some r => (r, "claude")
      | none => (fallbackSummary subject sender body, "fallback")

/-- The deterministic last-resort action returned when every provider tier of
the action chain yields no parseable result. Field values are verbatim from
the source. -/
def fallbackAction : ActionJson :=
  { action := "Review email"
    type := "review"
    priority := "medium"
    due_date := none
    reasoning := "Unable to generate AI recommendations" }

/-- One tier of the action chain: a truthy provider result is handed to the
JSON parser (an environment function standing for json.loads restricted to a
list of action objects); an absent or empty result, or a parse failure, is a
non-result. -/
def tryTier (parse : String → Option (List ActionJson)) (r : Option String) :
    Option (List ActionJson) :=
  match truthyStr r with
  | some s => parse s
  | none => none

/-- The sequential fallthrough of the action chain: the first tier whose
truthy result parses wins; an exhausted chain yields the deterministic
fallback action. -/
def runActionChain (parse : String → Option (List ActionJson)) :
    List (Option String) → List ActionJson
  | [] => [fallbackAction]
  | r :: rest =>
    match tryTier parse r with
    | some a => a
    | none => runActionChain parse rest

/-- Embeds AIService generate actions: OpenAI, then Claude, then Gemini, each
parsed with json.loads, falling through on failure, ending in the fallback
action. -/
def generateActions (parse : String → Option (List ActionJson))
    (p : ActionProviders) : List ActionJson :=
  runActionChain parse [p.openai, p.claude, p.gemini]

/-- Embeds AIService.process email: summary and action extraction over the
same input (run concurrently in the source; both complete before the pair is
returned, so the result is their pair). -/
def processEmail (parse : String → Option (List ActionJson))
    (ps : SummaryProviders) (pa : ActionProviders)
    (subject sender body : String) :
    (String × String) × List ActionJson :=
  (generateSummary ps subject sender body, generateActions parse pa)

/-! Mail Gateway Client, from app/services/graph_client.py. HTTP transport is
an environment function from method and url to an optional response payload
(none embeds a non-2xx status or a transport error, both caught and turned
into None in the source). Payloads are uninterpreted strings; the Python truthiness
test on a cached payload is non-emptiness. -/

/-- Environment of the gateway client: the transport and the SHA256 hex
digest function used by the cache key scheme. -/
structure GraphEnv where
  http : String → String → Option String
  hash : String → String

/-- The constant base url prefixed to every endpoint. -/
def graphBaseUrl : String := "https://graph.microsoft.com/v1.0"

/-- Embeds CacheService cache keys for gateway responses: the graph api
namespace prefix applied to the SHA256 digest of the full request url. -/
def graphKey (hash : String → String) (url : String) : String :=
  "graph_api:" ++ hash url

/-- The cache store shared by gateway calls. -/
abbrev GraphCache := List (String × String)

/-- Embeds GraphClient make request: for a GET with the use-cache flag set, a
truthy cached payload for the url key is returned before any transport call;
otherwise the transport runs, a successful GET with the flag set populates
the cache, and a failure yields none with the cache untouched. -/
def makeRequest (env : GraphEnv) (cache : GraphCache)
    (method endpoint : String) (useCache : Bool) : GraphCache × Option String :=
  let url := graphBaseUrl ++ endpoint
  match (if method == "GET" && useCache then
           truthyStr (cacheGet cache (graphKey env.hash url))
         else none) with
  | some cached => (cache, some cached)
  | none =>
    match env.http method url with
    | some data =>
        if method == "GET" && useCache then
          (cacheSet cache (graphKey env.hash url) data, some data)
        else (cache, some data)
    | none => (cache, none)

/-- Embeds GraphClient get user profile for the current user: a GET with the
default use-cache flag, which is true. -/
def getUserProfile (env : GraphEnv) (cache : GraphCache) :
    GraphCache × Option String :=
  makeRequest env cache "GET" "/me" true

/-- Embeds GraphClient get email by id for the current user: a GET issued
with the use-cache flag explicitly false. -/
def getEmailById (env : GraphEnv) (cache : GraphCache) (messageId : String) :
    GraphCache × Option String :=
  makeRequest env cache "GET" ("/me/messages/" ++ messageId) false

/-- Embeds the endpoint string built by GraphClient fetch emails for the
current user with the default pagination arguments and a filter query. -/
def fetchEmailsEndpoint (folder : String) (top skip : Nat)
    (filterQuery : Option String) (orderBy : String) : String :=
  let base := "/me/mailfolders/" ++ folder ++ "/messages"
  let params := "$top=" ++ toString top ++ "&$skip=" ++ toString skip
      ++ "&$orderby=" ++ orderBy
      ++ (match filterQuery with
          | some f => "&$filter=" ++ f
          | none => "")
  base ++ "?" ++ params

/-- Embeds GraphClient fetch emails: a GET on the message list endpoint with
the use-cache flag explicitly false (extraction of the value field from the
uninterpreted payload is elided). -/
def fetchEmails (env : GraphEnv) (cache : GraphCache) (folder : String)
    (top skip : Nat) (filterQuery : Option String) (orderBy : String) :
    GraphCache × Option String :=
  makeRequest env cache "GET"
    (fetchEmailsEndpoint folder top skip filterQuery orderBy) false

/-- Embeds GraphClient fetch unread emails: fetch emails with the unread
filter and the caller-supplied cap. -/
def fetchUnreadEmails (env : GraphEnv) (cache : GraphCache) (maxCount : Nat) :
    GraphCache × Option String :=
  fetchEmails env cache "inbox" maxCount 0 (some "isRead eq false")
    "receivedDateTime desc"

/-! Webhook Receiver, from app/api/webhooks.py. -/

/-- One entry of the value list of a notification payload. -/
structure RawNotification where
  subscriptionId : String
  changeType : String
  resource : String
deriving Repr, DecidableEq

/-- A decoded webhook request body: an optional validation token and the
possibly empty list of change notifications. -/
structure WebhookBody where
  validationToken : Option String
  value : List RawNotification
deriving Repr, DecidableEq

/-- The response returned to the notification source: a status code and, for
the handshake, a plain-text body. -/
structure WebhookResponse where
  status : Nat
  bodyText : Option String
deriving Repr, DecidableEq

/-- A task handed to the queue by the receiver, with the arguments of the
delay call. -/
structure EnqueuedTask where
  subscriptionId : String
  messageId : String
  changeType : String
deriving Repr, DecidableEq

/-- Python split of a character list on a separator character: always at
least one (possibly empty) segment, and one extra segment per separator
occurrence. -/
def splitOnChar (c : Char) : List Char → List (List Char)
  | [] => [[]]
  | x :: xs =>
    if x == c then [] :: splitOnChar c xs
    else
      match splitOnChar c xs with
      | [] => [[x]]
      | y :: ys => (x :: y) :: ys

/-- Python split of the resource path on the slash character, at the
character level. -/
def splitSlash (s : String) : List String :=
  (splitOnChar '/' s.data).map (fun l => { data := l })

/-- Embeds the per-entry extraction: the last slash-delimited segment of the
resource path when the path contains a slash, otherwise none. -/
def extractMessageId (resource : String) : Option String :=
  if resource.data.contains '/' then some ((splitSlash resource).getLastD "")
  else none

/-- Embeds the guarded enqueue of one entry: a task is produced exactly when
the extracted message id is truthy (present and non-empty). -/
def enqueueOf (n : RawNotification) : Option EnqueuedTask :=
  match extractMessageId n.resource with
  | some mid =>
      if mid == "" then none
      else some { subscriptionId := n.subscriptionId, messageId := mid,
                  changeType := n.changeType }
  | none => none

/-- Embeds the receive webhook notification handler on a decoded body: a
present validation token is echoed verbatim with status 200 and no entry is
processed; otherwise every entry of the value list is parsed, the parseable
ones are enqueued in order, unparseable ones are skipped, and the status is
202. -/
def receiveWebhookNotification (body : WebhookBody) :
    WebhookResponse × List EnqueuedTask :=
  match body.validationToken with
  | some token => ({ status := 200, bodyText := some token }, [])
  | none =>
    if body.value.isEmpty then ({ status := 202, bodyText := none }, [])
    else ({ status := 202, bodyText := none }, body.value.filterMap enqueueOf)

/-! Task Dispatcher retry policy, from the task decorator and retry call in
app/tasks/email_tasks.py. The Celery machinery is a collaborator: a task
bound with max retries three re-raises through self.retry with countdown two
to the power of the current retry count, and retry marks the task permanently
failed once the retry count has reached the maximum. -/

/-- The max retries argument of the task decorator. -/
def maxRetries : Nat := 3

/-- Terminal disposition of one execution of the notification task. -/
inductive TaskResult where
  | succeeded
  | retryScheduled (countdown : Nat) (newRetries : Nat)
  | permanentlyFailed
deriving Repr, DecidableEq

/-- Embeds one execution of process email notification at a given retry
count: a raising async flow schedules a retry with countdown two to the power
of the retry count while retries remain, and is permanently failed once the
maximum is exhausted; a non-raising flow succeeds. -/
def processEmailNotificationStep (asyncRaises : Bool) (retries : Nat) :
    TaskResult :=
  if asyncRaises then
    if retries < maxRetries then .retryScheduled (2 ^ retries) (retries + 1)
    else .permanentlyFailed
  else .succeeded

/-! Worker flow, from the async helper of process email notification in
app/tasks/email_tasks.py. The database of email records is a list; user
resolution, token acquisition, the gateway fetch, the AI engine and the
SHA256 digest are environment functions. The vector-store upsert is a
best-effort external effect with no bearing on the persisted state and is
elided. -/

/-- The body object of a fetched message. -/
structure EmailBody where
  contentType : String
  content : String
deriving Repr, DecidableEq

/-- The fields of a fetched message the worker reads. -/
structure EmailData where
  subject : String
  senderAddress : String
  body : EmailBody
deriving Repr, DecidableEq

/-- Embeds the body text extraction: the content exactly when the content
type is text, otherwise the empty string. -/
def bodyTextOf (b : EmailBody) : String :=
  if b.contentType == "text" then b.content else ""

/-- Embeds the body html extraction: the content exactly when the content
type is html, otherwise the empty string. -/
def bodyHtmlOf (b : EmailBody) : String :=
  if b.contentType == "html" then b.content else ""

/-- A persisted email record, restricted to the fields the claims are about.
The messageId column carries a uniqueness constraint in the schema; the
dedup check before insert is the application-level guard embedded below. -/
structure EmailRecord where
  userId : Nat
  messageId : String
  subject : String
  summary : String
  suggestedActions : List ActionJson
  aiModelUsed : String
deriving Repr, DecidableEq

/-- Embeds the existence query: whether some persisted record carries the
message id. -/
def emailExists (db : List EmailRecord) (mid : String) : Bool :=
  db.any (fun r => r.messageId == mid)

/-- The result of running the AI engine inside the worker: summary, action
list and the model recorded as last used. -/
structure AiResult where
  summary : String
  actions : List ActionJson
  modelUsed : String
deriving Repr, DecidableEq

/-- Environment of the worker: user lookup by subscription id, token
acquisition, the gateway fetch by message id, the AI engine and the SHA256
hex digest. -/
structure WorkerEnv where
  userFor : String → Option Nat
  tokenFor : Nat → Option String
  fetchEmail : String → Option EmailData
  aiProcess : String → String → String → AiResult
  hashContent : String → String

/-- Mutable state threaded through the worker: the persisted records and the
two AI response caches keyed by content hash. -/
structure WorkerState where
  emails : List EmailRecord
  summaryCache : List (String × String)
  actionsCache : List (String × List ActionJson)
deriving Repr, DecidableEq

/-- Terminal disposition of one async processing run. -/
inductive WorkerOutcome where
  | userNotFound
  | tokenFailed
  | fetchFailed
  | alreadyProcessed
  | processed (modelUsed : String)
deriving Repr, DecidableEq

/-- Embeds the string hashed for the AI caches: subject, a colon, and the
plain-text body only. -/
def hashInput (ed : EmailData) : String :=
  ed.subject ++ ":" ++ bodyTextOf ed.body

/-- Embeds the async helper of process email notification: resolve the user,
obtain a token, fetch the message, no-op when a record for the message id
already exists, then either reuse truthy cached AI output or run the engine
and populate both caches, and append exactly one record. -/
def processEmailAsync (env : WorkerEnv) (st : WorkerState)
    (subscriptionId messageId : String) : WorkerState × WorkerOutcome :=
  match env.userFor subscriptionId with
  | none => (st, .userNotFound)
  | some uid =>
    match env.tokenFor uid with
    | none => (st, .tokenFailed)
    | some _tok =>
      match env.fetchEmail messageId with
      | none => (st, .fetchFailed)
      | some ed =>
        if emailExists st.emails messageId then (st, .alreadyProcessed)
        else
          let btext := bodyTextOf ed.body
          let bhtml := bodyHtmlOf ed.body
          let contentHash := env.hashContent (hashInput ed)
          match truthyStr (cacheGet st.summaryCache contentHash),
                truthyList (cacheGet st.actionsCache contentHash) with
          | some summary, some actions =>
            let record : EmailRecord :=
              { userId := uid, messageId := messageId, subject := ed.subject,
                summary := summary, suggestedActions := actions,
                aiModelUsed := "cached" }
            ({ st with emails := st.emails ++ [record] }, .processed "cached")
          | _, _ =>
            let ai := env.aiProcess ed.subject ed.senderAddress
                (if btext == "" then bhtml else btext)
            let record : EmailRecord :=
              { userId := uid, messageId := messageId, subject := ed.subject,
                summary := ai.summary, suggestedActions := ai.actions,
                aiModelUsed := ai.modelUsed }
            ({ emails := st.emails ++ [record],
               summaryCache := cacheSet st.summaryCache contentHash ai.summary,
               actionsCache := cacheSet st.actionsCache contentHash ai.actions },
             .processed ai.modelUsed)

/-- Number of persisted records carrying a message id. -/
def countMid (db : List EmailRecord) (mid : String) : Nat :=
  db.countP (fun r => r.messageId == mid)

/-! Subscription Lifecycle Manager, from app/services/webhook_service.py and
app/tasks/subscription_renewal.py. User rows are a list; token acquisition
and the gateway outcomes are environment functions. Timestamps are integer
seconds. The gateway is modelled as echoing the requested expiration on a
successful renewal, which is what the renew call requests: now plus the
renew-minutes constant. -/

/-- The expiration argument of the create and renew calls, in minutes. -/
def renewMinutes : Nat := 4230

/-- The subscription fields embedded on a user row. -/
structure UserRec where
  id : Nat
  subscriptionId : Option String
  expiresAt : Option Int
deriving Repr, DecidableEq

/-- Environment of the subscription services: token acquisition per user and
the gateway outcome of a renew or delete call. -/
structure SubEnv where
  tokenOk : Nat → Bool
  renewOk : Nat → Bool
  deleteOk : String → Bool

/-- The select on the user table by primary key: the first row with the id. -/
def lookupUser (users : List UserRec) (uid : Nat) : Option UserRec :=
  users.find? (fun u => u.id == uid)

/-- The row update of a successful renewal: set the expiration of the row
with the given id to now plus the renew horizon, touch nothing else. -/
def renewUpdate (now : Int) (uid : Nat) (v : UserRec) : UserRec :=
  if v.id == uid then
    { v with expiresAt := some (now + (renewMinutes : Int) * 60) }
  else v

/-- The row update of a successful deletion: clear both subscription fields
of the row with the given id, touch nothing else. -/
def deleteUpdate (uid : Nat) (v : UserRec) : UserRec :=
  if v.id == uid then { v with subscriptionId := none, expiresAt := none }
  else v

/-- Embeds renew subscription for user: fail without touching state when the
user is absent, holds no subscription id, the token is unobtainable, or the
gateway renewal fails; on gateway success update only the expiration of that
user to now plus the renew horizon, leaving the subscription id in place. -/
def renewSubscriptionForUser (env : SubEnv) (users : List UserRec) (now : Int)
    (uid : Nat) : List UserRec × Bool :=
  match lookupUser users uid with
  | none => (users, false)
  | some u =>
    match u.subscriptionId with
    | none => (users, false)
    | some _sid =>
      if env.tokenOk uid then
        if env.renewOk uid then (users.map (renewUpdate now uid), true)
        else (users, false)
      else (users, false)

/-- Embeds delete subscription for user: fail without touching state when the
user is absent, holds no subscription id, or the token is unobtainable; call
the gateway, and only on gateway success clear both subscription fields. -/
def deleteSubscriptionForUser (env : SubEnv) (users : List UserRec)
    (uid : Nat) : List UserRec × Bool :=
  match lookupUser users uid with
  | none => (users, false)
  | some u =>
    match u.subscriptionId with
    | none => (users, false)
    | some sid =>
      if env.tokenOk uid then
        if env.deleteOk sid then (users.map (deleteUpdate uid), true)
        else (users, false)
      else (users, false)

/-- Embeds the sweep selection: users holding a subscription id whose
expiration is strictly below now plus twenty-four hours (a null expiration is
filtered out, as the SQL comparison with null selects nothing). -/
def sweepSelect (users : List UserRec) (now : Int) : List UserRec :=
  users.filter (fun u =>
    u.subscriptionId.isSome &&
    (match u.expiresAt with
     | some e => decide (e < now + 86400)
     | none => false))

/-- The identity-relevant projection of a user row: its primary key and its
stored subscription id. Renewal must preserve this pointwise. -/
def subProj (v : UserRec) : Nat × Option String :=
  (v.id, v.subscriptionId)

/-- One iteration of the sweep loop over the evolving user table, with the
renewed and failed counters; a failed or throwing renewal only bumps the
failure counter and the loop continues. -/
def sweepStep (env : SubEnv) (now : Int) (acc : List UserRec × Nat × Nat)
    (u : UserRec) : List UserRec × Nat × Nat :=
  match renewSubscriptionForUser env acc.1 now u.id with
  | (st, true) => (st, acc.2.1 + 1, acc.2.2)
  | (st, false) => (st, acc.2.1, acc.2.2 + 1)

/-- Embeds the hourly renewal sweep: select the users with subscriptions
expiring inside the horizon, then renew each in turn, counting successes and
failures, never halting on an individual failure. -/
def renewExpiringSubscriptions (env : SubEnv) (users : List UserRec)
    (now : Int) : List UserRec × Nat × Nat :=
  (sweepSelect users now).foldl (sweepStep env now) (users, 0, 0)

/-! Concrete environments used to evaluate the models on closed inputs. -/

/-- A fetched html message used as a closed evaluation input. -/
def wEmail1 : EmailData :=
  { subject := "Subj", senderAddress := "a@b",
    body := { contentType := "html", content := "<p>one</p>" } }

/-- A second fetched html message with the same subject but different html
content. -/
def wEmail2 : EmailData :=
  { subject := "Subj", senderAddress := "c@d",
    body := { contentType := "html", content := "<p>two</p>" } }

/-- A closed worker environment: one user, a fixed token, two fetchable
messages, a constant AI engine and the identity digest. -/
def wEnv : WorkerEnv :=
  { userFor := fun _ => some 1
    tokenFor := fun _ => some "tok"
    fetchEmail := fun m =>
      if m == "m1" then some wEmail1
      else if m == "m2" then some wEmail2 else none
    aiProcess := fun _ _ _ =>
      { summary := "SUM", actions := [fallbackAction], modelUsed := "gpt-4" }
    hashContent := fun s => s }

/-- A closed subscription environment where every call succeeds. -/
def wSubEnv : SubEnv :=
  { tokenOk := fun _ => true, renewOk := fun _ => true,
    deleteOk := fun _ => true }

/-- A closed subscription environment where the gateway deletion fails. -/
def wSubEnvDeleteFail : SubEnv :=
  { tokenOk := fun _ => true, renewOk := fun _ => true,
    deleteOk := fun _ => false }

/-- A closed user row holding a subscription that expires soon. -/
def wUser : UserRec :=
  { id := 7, subscriptionId := some "sub7", expiresAt := some 100 }

/-! Helper lemmas shared by several claims. -/

/-- The number of elements kept by filterMap equals the number of elements on
which the function is defined. -/
theorem length_filterMap_eq_countP {α β : Type} (f : α → Option β)
    (l : List α) :
    (l.filterMap f).length = l.countP (fun a => (f a).isSome) := by
  induction l with
  | nil => rfl
  | cons a l ih =>
    cases h : f a <;>
      simp [List.filterMap_cons, h, List.countP_cons, ih]

/-- A nonempty concatenation on the left keeps a string nonempty. -/
theorem fallbackSummary_ne_empty (subject sender body : String) :
    fallbackSummary subject sender body ≠ "" := by
  unfold fallbackSummary
  intro h
  have hl := congrArg String.length h
  have h13 : ("• Email from " : String).length = 13 := rfl
  simp [String.length_append] at hl
  omega

/-- C5: a webhook body carrying a validation token is answered with status
200 and the token verbatim as the plain-text body, and no notification entry
is processed. -/
theorem C5_validation_token_echo (body : WebhookBody) (t : String)
    (h : body.validationToken = some t) :
    receiveWebhookNotification body =
      ({ status := 200, bodyText := some t }, []) := by
  simp [receiveWebhookNotification, h]

/-- Witness for C5 at the concrete token abc123. -/
theorem C5_validation_token_echo_witness :
    receiveWebhookNotification
        { validationToken := some "abc123", value := [] } =
      ({ status := 200, bodyText := some "abc123" }, []) :=
  C5_validation_token_echo
    { validationToken := some "abc123", value := [] } "abc123" rfl

/-- C4: on a body without validation token, the receiver answers 202, the
enqueued tasks are exactly the entries whose resource parses to a truthy
message id, in order, and their number is the count of parseable entries;
unparseable entries are skipped without aborting the batch. -/
theorem C4_parseable_entries_enqueued (body : WebhookBody)
    (h : body.validationToken = none) :
    (receiveWebhookNotification body).1.status = 202 ∧
    (receiveWebhookNotification body).2 = body.value.filterMap enqueueOf ∧
    (receiveWebhookNotification body).2.length =
      body.value.countP (fun n => (enqueueOf n).isSome) := by
  by_cases hv : body.value.isEmpty
  · have hnil : body.value = [] := by
      cases bv : body.value
      · rfl
      · rw [bv] at hv; simp at hv
    simp [receiveWebhookNotification, h, hnil]
  · simp [receiveWebhookNotification, h, hv,
      length_filterMap_eq_countP]

/-- Witness for C4 on a concrete batch with two parseable entries and two
unparseable ones. -/
theorem C4_parseable_entries_enqueued_witness :
    (receiveWebhookNotification
        { validationToken := none
          value :=
            [{ subscriptionId := "s1", changeType := "created",
               resource := "Users/u1/Messages/m1" },
             { subscriptionId := "s1", changeType := "created",
               resource := "noslash" },
             { subscriptionId := "s2", changeType := "created",
               resource := "Users/u2/Messages/m2" },
             { subscriptionId := "s2", changeType := "created",
               resource := "trailing/" }] }).1.status = 202 ∧
    (receiveWebhookNotification
        { validationToken := none
          value :=
            [{ subscriptionId := "s1", changeType := "created",
               resource := "Users/u1/Messages/m1" },
             { subscriptionId := "s1", changeType := "created",
               resource := "noslash" },
             { subscriptionId := "s2", changeType := "created",
               resource := "Users/u2/Messages/m2" },
             { subscriptionId := "s2", changeType := "created",
               resource := "trailing/" }] }).2.length = 2 := by
  have h := C4_parseable_entries_enqueued
    { validationToken := none
      value :=
        [{ subscriptionId := "s1", changeType := "created",
           resource := "Users/u1/Messages/m1" },
         { subscriptionId := "s1", changeType := "created",
           resource := "noslash" },
         { subscriptionId := "s2", changeType := "created",
           resource := "Users/u2/Messages/m2" },
         { subscriptionId := "s2", changeType := "created",
           resource := "trailing/" }] } rfl
  exact ⟨h.1, by rw [h.2.2]; decide⟩

/-- C6: a raising async flow at a retry count below the maximum of three is
rescheduled with countdown two to the power of the retry count; once three
retries are exhausted the task is permanently failed instead of retried. -/
theorem C6_retry_backoff_cap (retries : Nat) :
    (retries < maxRetries →
      processEmailNotificationStep true retries =
        .retryScheduled (2 ^ retries) (retries + 1)) ∧
    (maxRetries ≤ retries →
      processEmailNotificationStep true retries = .permanentlyFailed) := by
  constructor
  · intro h
    simp [processEmailNotificationStep, h]
  · intro h
    simp [processEmailNotificationStep, Nat.not_lt.mpr h]

/-- Witness for C6 at retry counts two and three. -/
theorem C6_retry_backoff_cap_witness :
    processEmailNotificationStep true 2 = .retryScheduled 4 3 ∧
    processEmailNotificationStep true 3 = .permanentlyFailed :=
  ⟨(C6_retry_backoff_cap 2).1 (by decide),
   (C6_retry_backoff_cap 3).2 (by decide)⟩

/-- C8: a tier whose truthy content fails to parse is a non-result: the chain
continues with the next tier, the same provider is not consulted again, and
no error is propagated (the chain is a total function); in particular a parse
failure of the first action provider hands over to the remaining two. -/
theorem C8_parse_failure_falls_through
    (parse : String → Option (List ActionJson)) (s : String)
    (rest : List (Option String)) (hp : parse s = none) :
    runActionChain parse (some s :: rest) = runActionChain parse rest ∧
    ∀ p : ActionProviders, p.openai = some s →
      generateActions parse p = runActionChain parse [p.claude, p.gemini] := by
  have h1 : tryTier parse (some s) = none := by
    by_cases hs : s = ""
    · simp [tryTier, truthyStr, hs]
    · simp [tryTier, truthyStr, hs, hp]
  constructor
  · simp [runActionChain, h1]
  · intro p hop
    simp [generateActions, runActionChain, hop, h1]

/-- Witness for C8: the scenario where a provider answers the literal string
not json, which the parser rejects. -/
theorem C8_parse_failure_falls_through_witness :
    runActionChain (fun _ => none) [some "not json"] =
      runActionChain (fun _ => none) [] :=
  (C8_parse_failure_falls_through (fun _ => none) "not json" [] rfl).1

/-- C2, counterexample to the claim as stated: with every provider failing,
the single fallback action carries the reasoning text Unable to generate AI
recommendations, not the text automated fallback the claim names. -/
theorem C2_counterexample :
    processEmail (fun _ => none)
        { gemini := none, openai := none, claude := none }
        { openai := none, claude := none, gemini := none }
        "s" "a@b" "hello" =
      (("• Email from a@b\n• Subject: s\n• hello", "fallback"),
        [fallbackAction]) ∧
    fallbackAction.reasoning = "Unable to generate AI recommendations" ∧
    (processEmail (fun _ => none)
        { gemini := none, openai := none, claude := none }
        { openai := none, claude := none, gemini := none }
        "s" "a@b" "hello").2 ≠
      [{ action := "Review email", type := "review", priority := "medium",
         due_date := none, reasoning := "automated fallback" }] := by
  refine ⟨rfl, rfl, ?_⟩
  decide

/-- C2 amended: when every summary provider yields no truthy result and every
action tier yields no parseable result, the enrichment returns the rule-based
fallback summary, which is nonempty, together with the single deterministic
fallback action titled Review email of type review and priority medium, whose
reasoning text is Unable to generate AI recommendations; the operation is a
total function, so it never raises. -/
theorem C2_fallback_amended (parse : String → Option (List ActionJson))
    (ps : SummaryProviders) (pa : ActionProviders)
    (subject sender body : String)
    (hg : truthyStr ps.gemini = none) (ho : truthyStr ps.openai = none)
    (hc : truthyStr ps.claude = none)
    (ha1 : tryTier parse pa.openai = none)
    (ha2 : tryTier parse pa.claude = none)
    (ha3 : tryTier parse pa.gemini = none) :
    processEmail parse ps pa subject sender body =
      ((fallbackSummary subject sender body, "fallback"), [fallbackAction]) ∧
    fallbackSummary subject sender body ≠ "" ∧
    fallbackAction.action = "Review email" ∧
    fallbackAction.type = "review" ∧
    fallbackAction.priority = "medium" := by
  refine ⟨?_, fallbackSummary_ne_empty subject sender body, rfl, rfl, rfl⟩
  simp [processEmail, generateSummary, generateActions, runActionChain,
    hg, ho, hc, ha1, ha2, ha3]

/-- Witness for the amended C2 at a concrete input with all providers out. -/
theorem C2_fallback_amended_witness :
    processEmail (fun _ => none)
        { gemini := some "", openai := none, claude := none }
        { openai := some "not json", claude := none, gemini := none }
        "subj" "x@y" "body text" =
      ((fallbackSummary "subj" "x@y" "body text", "fallback"),
        [fallbackAction]) ∧
    fallbackSummary "subj" "x@y" "body text" ≠ "" ∧
    fallbackAction.action = "Review email" ∧
    fallbackAction.type = "review" ∧
    fallbackAction.priority = "medium" :=
  C2_fallback_amended (fun _ => none)
    { gemini := some "", openai := none, claude := none }
    { openai := some "not json", claude := none, gemini := none }
    "subj" "x@y" "body text" rfl rfl rfl rfl rfl rfl

/-- C3, counterexample to the claim as stated: fetch-by-id passes the
use-cache flag as false, so even with a truthy cached payload stored under
the key derived from the full request url, get email by id ignores the cache
and returns the transport failure; and a successful fetch-by-id does not
populate the cache. -/
theorem C3_counterexample :
    truthyStr (cacheGet
        [("graph_api:https://graph.microsoft.com/v1.0/me/messages/m1",
          "CACHED")]
        (graphKey (fun s => s)
          (graphBaseUrl ++ "/me/messages/" ++ "m1"))) = some "CACHED" ∧
    getEmailById { http := fun _ _ => none, hash := fun s => s }
        [("graph_api:https://graph.microsoft.com/v1.0/me/messages/m1",
          "CACHED")] "m1" =
      ([("graph_api:https://graph.microsoft.com/v1.0/me/messages/m1",
          "CACHED")], none) ∧
    getEmailById { http := fun _ _ => some "DATA", hash := fun s => s }
        [] "m1" = ([], some "DATA") :=
  ⟨rfl, rfl, rfl⟩

/-- C3 amended: a GET is cache-checked before the transport and
cache-populated on success exactly when its use-cache flag is set, with the
key derived from the full request url; fetch-by-id and list-unread pass the
flag as false, so they neither read nor populate the cache; mutating methods
never read from or populate the cache. -/
theorem C3_cache_gating_amended :
    (∀ (env : GraphEnv) (cache : GraphCache) (endpoint v : String),
      truthyStr (cacheGet cache
          (graphKey env.hash (graphBaseUrl ++ endpoint))) = some v →
      makeRequest env cache "GET" endpoint true = (cache, some v)) ∧
    (∀ (env : GraphEnv) (cache : GraphCache) (endpoint data : String),
      truthyStr (cacheGet cache
          (graphKey env.hash (graphBaseUrl ++ endpoint))) = none →
      env.http "GET" (graphBaseUrl ++ endpoint) = some data →
      makeRequest env cache "GET" endpoint true =
        (cacheSet cache (graphKey env.hash (graphBaseUrl ++ endpoint)) data,
          some data)) ∧
    (∀ (env : GraphEnv) (cache : GraphCache) (mid : String),
      getEmailById env cache mid =
        (cache, env.http "GET" (graphBaseUrl ++ ("/me/messages/" ++ mid)))) ∧
    (∀ (env : GraphEnv) (cache : GraphCache) (folder : String)
        (top skp : Nat) (fq : Option String) (ob : String),
      fetchEmails env cache folder top skp fq ob =
        (cache,
          env.http "GET"
            (graphBaseUrl ++ fetchEmailsEndpoint folder top skp fq ob))) ∧
    (∀ (env : GraphEnv) (cache : GraphCache)
        (method endpoint : String) (useCache : Bool),
      (method == "GET") = false →
      makeRequest env cache method endpoint useCache =
        (cache, env.http method (graphBaseUrl ++ endpoint))) := by
  refine ⟨?_, ?_, ?_, ?_, ?_⟩
  · intro env cache endpoint v h
    simp [makeRequest, h]
  · intro env cache endpoint data h hh
    simp [makeRequest, h, hh]
  · intro env cache mid
    simp only [getEmailById, makeRequest, Bool.and_false]
    cases h : env.http "GET" (graphBaseUrl ++ ("/me/messages/" ++ mid)) <;>
      simp [h]
  · intro env cache folder top skp fq ob
    simp only [fetchEmails, makeRequest, Bool.and_false]
    cases h : env.http "GET"
        (graphBaseUrl ++ fetchEmailsEndpoint folder top skp fq ob) <;>
      simp [h]
  · intro env cache method endpoint useCache h
    simp only [makeRequest, h, Bool.false_and]
    cases hh : env.http method (graphBaseUrl ++ endpoint) <;> simp [hh]

/-- Witness for the amended C3, covering a cached profile read, a cache miss
populated on success, a fetch-by-id ignoring the cache, a list-unread
ignoring the cache, and a PATCH bypassing the cache. -/
theorem C3_cache_gating_amended_witness :
    makeRequest { http := fun _ _ => none, hash := fun s => s }
        [("graph_api:https://graph.microsoft.com/v1.0/me", "V")]
        "GET" "/me" true =
      ([("graph_api:https://graph.microsoft.com/v1.0/me", "V")], some "V") ∧
    makeRequest { http := fun _ _ => some "W", hash := fun s => s }
        [] "GET" "/me" true =
      ([("graph_api:https://graph.microsoft.com/v1.0/me", "W")], some "W") ∧
    getEmailById { http := fun _ _ => some "D", hash := fun s => s }
        [] "m1" = ([], some "D") ∧
    fetchUnreadEmails { http := fun _ _ => some "L", hash := fun s => s }
        [] 50 = ([], some "L") ∧
    makeRequest { http := fun _ _ => some "P", hash := fun s => s }
        [] "PATCH" "/me/messages/m1" false = ([], some "P") := by
  refine ⟨?_, ?_, ?_, ?_, ?_⟩
  · exact C3_cache_gating_amended.1
      { http := fun _ _ => none, hash := fun s => s }
      [("graph_api:https://graph.microsoft.com/v1.0/me", "V")] "/me" "V" rfl
  · exact C3_cache_gating_amended.2.1
      { http := fun _ _ => some "W", hash := fun s => s } [] "/me" "W" rfl rfl
  · exact C3_cache_gating_amended.2.2.1
      { http := fun _ _ => some "D", hash := fun s => s } [] "m1"
  · exact C3_cache_gating_amended.2.2.2.1
      { http := fun _ _ => some "L", hash := fun s => s } [] "inbox" 50 0
      (some "isRead eq false") "receivedDateTime desc"
  · exact C3_cache_gating_amended.2.2.2.2
      { http := fun _ _ => some "P", hash := fun s => s } []
      "PATCH" "/me/messages/m1" false rfl

/-- The dedup query answers false exactly when no record carries the message
id. -/
theorem emailExists_false_iff (db : List EmailRecord) (mid : String) :
    emailExists db mid = false ↔ countMid db mid = 0 := by
  simp [emailExists, countMid, List.any_eq_false, List.countP_eq_zero]

/-- On the happy path with a pre-existing record, the worker is a strict
no-op returning the already-processed disposition. -/
theorem processEmailAsync_noop (env : WorkerEnv) (st : WorkerState)
    (sid mid : String) (uid : Nat) (tok : String) (ed : EmailData)
    (hu : env.userFor sid = some uid) (ht : env.tokenFor uid = some tok)
    (hf : env.fetchEmail mid = some ed)
    (he : emailExists st.emails mid = true) :
    processEmailAsync env st sid mid = (st, .alreadyProcessed) := by
  simp [processEmailAsync, hu, ht, hf, he]

/-- On the happy path with no pre-existing record, the worker appends exactly
one record carrying the processed message id. -/
theorem processEmailAsync_inserts (env : WorkerEnv) (st : WorkerState)
    (sid mid : String) (uid : Nat) (tok : String) (ed : EmailData)
    (hu : env.userFor sid = some uid) (ht : env.tokenFor uid = some tok)
    (hf : env.fetchEmail mid = some ed)
    (he : emailExists st.emails mid = false) :
    ∃ r : EmailRecord,
      (processEmailAsync env st sid mid).1.emails = st.emails ++ [r] ∧
      r.messageId = mid := by
  simp only [processEmailAsync, hu, ht, hf, he, Bool.false_eq_true,
    if_false]
  split
  · exact ⟨_, rfl, rfl⟩
  · exact ⟨_, rfl, rfl⟩

/-- Every run of the worker either leaves the record store untouched or, when
no record carried the id yet, appends exactly one record with that id. -/
theorem processEmailAsync_emails_cases (env : WorkerEnv) (st : WorkerState)
    (sid mid : String) :
    (processEmailAsync env st sid mid).1.emails = st.emails ∨
    (emailExists st.emails mid = false ∧
      ∃ r : EmailRecord,
        (processEmailAsync env st sid mid).1.emails = st.emails ++ [r] ∧
        r.messageId = mid) := by
  cases hu : env.userFor sid with
  | none => left; simp [processEmailAsync, hu]
  | some uid =>
    cases ht : env.tokenFor uid with
    | none => left; simp [processEmailAsync, hu, ht]
    | some tok =>
      cases hf : env.fetchEmail mid with
      | none => left; simp [processEmailAsync, hu, ht, hf]
      | some ed =>
        cases he : emailExists st.emails mid with
        | true => left; simp [processEmailAsync, hu, ht, hf, he]
        | false =>
          right
          exact ⟨rfl, processEmailAsync_inserts env st sid mid uid tok ed
            hu ht hf he⟩

/-- C1: with a record already persisted for the message id, the worker run on
the happy path is a success-no-op that inserts nothing; every run keeps the
per-message-id record count at most the maximum of its old value and one; and
from a state with no record for the id, one successful run persists exactly
one record and a second identical run is a success-no-op leaving exactly that
one record. -/
theorem C1_idempotent_ingestion :
    (∀ (env : WorkerEnv) (st : WorkerState) (sid mid : String)
        (uid : Nat) (tok : String) (ed : EmailData),
      env.userFor sid = some uid → env.tokenFor uid = some tok →
      env.fetchEmail mid = some ed → emailExists st.emails mid = true →
      processEmailAsync env st sid mid = (st, .alreadyProcessed)) ∧
    (∀ (env : WorkerEnv) (st : WorkerState) (sid mid m : String),
      countMid (processEmailAsync env st sid mid).1.emails m ≤
        max (countMid st.emails m) 1) ∧
    (∀ (env : WorkerEnv) (st : WorkerState) (sid mid : String)
        (uid : Nat) (tok : String) (ed : EmailData),
      env.userFor sid = some uid → env.tokenFor uid = some tok →
      env.fetchEmail mid = some ed → countMid st.emails mid = 0 →
      countMid (processEmailAsync env st sid mid).1.emails mid = 1 ∧
      processEmailAsync env (processEmailAsync env st sid mid).1 sid mid =
        ((processEmailAsync env st sid mid).1, .alreadyProcessed)) := by
  refine ⟨processEmailAsync_noop, ?_, ?_⟩
  · intro env st sid mid m
    rcases processEmailAsync_emails_cases env st sid mid with
      heq | ⟨hex, r, heq, hmid⟩
    · rw [heq]
      exact le_max_left _ _
    · rw [heq]
      have happ : countMid (st.emails ++ [r]) m =
          countMid st.emails m + (if r.messageId == m then 1 else 0) := by
        simp [countMid, List.countP_append, List.countP_cons]
      by_cases hm : m = mid
      · subst hm
        have h0 : countMid st.emails m = 0 := (emailExists_false_iff _ _).mp hex
        rw [happ, h0, hmid]
        simp
      · have hne : (r.messageId == m) = false := by
          rw [hmid]
          exact beq_eq_false_iff_ne.mpr (Ne.symm hm)
        rw [happ, hne]
        simp
  · intro env st sid mid uid tok ed hu ht hf hc0
    have hex : emailExists st.emails mid = false :=
      (emailExists_false_iff _ _).mpr hc0
    obtain ⟨r, heq, hmid⟩ :=
      processEmailAsync_inserts env st sid mid uid tok ed hu ht hf hex
    have hcount : countMid (processEmailAsync env st sid mid).1.emails mid = 1 := by
      have happ : countMid (st.emails ++ [r]) mid =
          countMid st.emails mid + 1 := by
        simp [countMid, List.countP_append, List.countP_cons, hmid]
      rw [heq, happ, hc0]
    refine ⟨hcount, ?_⟩
    have he2 : emailExists (processEmailAsync env st sid mid).1.emails mid = true := by
      rw [heq]
      simp [emailExists, List.any_append, hmid]
    exact processEmailAsync_noop env _ sid mid uid tok ed hu ht hf he2

/-- Witness for C1 on the closed environment: a first run persists the
record, the second run is a success-no-op keeping exactly one record. -/
theorem C1_idempotent_ingestion_witness :
    countMid (processEmailAsync wEnv
        { emails := [], summaryCache := [], actionsCache := [] }
        "sub" "m1").1.emails "m1" = 1 ∧
    processEmailAsync wEnv
        (processEmailAsync wEnv
          { emails := [], summaryCache := [], actionsCache := [] }
          "sub" "m1").1 "sub" "m1" =
      ((processEmailAsync wEnv
          { emails := [], summaryCache := [], actionsCache := [] }
          "sub" "m1").1, .alreadyProcessed) :=
  C1_idempotent_ingestion.2.2 wEnv
    { emails := [], summaryCache := [], actionsCache := [] }
    "sub" "m1" 1 "tok" wEmail1 rfl rfl (by decide) (by decide)

/-- C9: the content hash input is subject, colon and plain-text body only, so
for two fetched html emails with equal subjects the digest input coincides
even when the html bodies differ; the digest key is then the same, and a
second processing run finds the cached summary and actions of the first run
and persists a record marked cached carrying them. -/
theorem C9_content_hash_ignores_html
    (env : WorkerEnv) (sid mid1 mid2 : String) (e1 e2 : EmailData)
    (uid : Nat) (tok : String) (st1 : WorkerState) (ai : AiResult)
    (h1 : e1.body.contentType = "html") (h2 : e2.body.contentType = "html")
    (hsub : e1.subject = e2.subject)
    (hu : env.userFor sid = some uid) (ht : env.tokenFor uid = some tok)
    (hf1 : env.fetchEmail mid1 = some e1)
    (hf2 : env.fetchEmail mid2 = some e2)
    (hne : mid1 ≠ mid2)
    (hai : ai = env.aiProcess e1.subject e1.senderAddress (bodyHtmlOf e1.body))
    (hst : st1 = (processEmailAsync env
        { emails := [], summaryCache := [], actionsCache := [] } sid mid1).1)
    (hsum : ai.summary ≠ "") (hact : ai.actions ≠ []) :
    hashInput e1 = hashInput e2 ∧
    env.hashContent (hashInput e1) = env.hashContent (hashInput e2) ∧
    processEmailAsync env st1 sid mid2 =
      ({ st1 with emails := st1.emails ++
          [{ userId := uid, messageId := mid2, subject := e2.subject,
             summary := ai.summary, suggestedActions := ai.actions,
             aiModelUsed := "cached" }] }, .processed "cached") := by
  have hb1 : bodyTextOf e1.body = "" := by simp [bodyTextOf, h1]
  have hb2 : bodyTextOf e2.body = "" := by simp [bodyTextOf, h2]
  have hhash : hashInput e1 = hashInput e2 := by
    simp [hashInput, hb1, hb2, hsub]
  refine ⟨hhash, by rw [hhash], ?_⟩
  have hrun1 : processEmailAsync env
      { emails := [], summaryCache := [], actionsCache := [] } sid mid1 =
      ({ emails := [{ userId := uid, messageId := mid1,
                      subject := e1.subject, summary := ai.summary,
                      suggestedActions := ai.actions,
                      aiModelUsed := ai.modelUsed }],
         summaryCache := [(env.hashContent (hashInput e1), ai.summary)],
         actionsCache := [(env.hashContent (hashInput e1), ai.actions)] },
       .processed ai.modelUsed) := by
    subst hai
    simp [processEmailAsync, hu, ht, hf1, hb1, emailExists, cacheGet,
      cacheSet, truthyStr, truthyList]
  have hbe : (mid1 == mid2) = false := beq_eq_false_iff_ne.mpr hne
  have hs' : (ai.summary == "") = false := beq_eq_false_iff_ne.mpr hsum
  have ha' : ai.actions.isEmpty = false := by
    cases hA : ai.actions with
    | nil => exact absurd hA hact
    | cons a l => rfl
  subst hst
  rw [hrun1]
  simp [processEmailAsync, hu, ht, hf2, emailExists, cacheGet, truthyStr,
    truthyList, hbe, hs', ha', ← hhash]

/-- Witness for C9 on the closed environment: processing the second html
email with the same subject reuses the cached output of the first. -/
theorem C9_content_hash_ignores_html_witness :
    processEmailAsync wEnv
        (processEmailAsync wEnv
          { emails := [], summaryCache := [], actionsCache := [] }
          "sub" "m1").1 "sub" "m2" =
      ({ (processEmailAsync wEnv
            { emails := [], summaryCache := [], actionsCache := [] }
            "sub" "m1").1 with
          emails := (processEmailAsync wEnv
            { emails := [], summaryCache := [], actionsCache := [] }
            "sub" "m1").1.emails ++
            [{ userId := 1, messageId := "m2", subject := "Subj",
               summary := "SUM", suggestedActions := [fallbackAction],
               aiModelUsed := "cached" }] }, .processed "cached") :=
  (C9_content_hash_ignores_html wEnv "sub" "m1" "m2" wEmail1 wEmail2 1 "tok"
    (processEmailAsync wEnv
      { emails := [], summaryCache := [], actionsCache := [] }
      "sub" "m1").1
    { summary := "SUM", actions := [fallbackAction], modelUsed := "gpt-4" }
    rfl rfl rfl rfl rfl (by decide) (by decide) (by decide) rfl rfl
    (by decide) (by decide)).2.2

/-- Mapping an entry-preserving update under a projection leaves the
projected list unchanged. -/
theorem map_proj_of_pointwise {α β : Type} (f : α → α) (proj : α → β)
    (h : ∀ a, proj (f a) = proj a) (l : List α) :
    (l.map f).map proj = l.map proj := by
  induction l with
  | nil => rfl
  | cons a l ih => simp [h, ih]

/-- Looking a user up after an id-preserving row update finds the updated
row of the same user. -/
theorem lookupUser_map (g : UserRec → UserRec)
    (hg : ∀ v, (g v).id = v.id) (users : List UserRec) (uid : Nat) :
    lookupUser (users.map g) uid = (lookupUser users uid).map g := by
  induction users with
  | nil => rfl
  | cons v l ih =>
    cases hb : (v.id == uid) with
    | false =>
      have hgb : ((g v).id == uid) = false := by rw [hg]; exact hb
      simpa [lookupUser, List.find?, hb, hgb] using ih
    | true =>
      have hgb : ((g v).id == uid) = true := by rw [hg]; exact hb
      simp [lookupUser, List.find?, hb, hgb]

/-- The renewal row update keeps every primary key in place. -/
theorem renewUpdate_id (now : Int) (uid : Nat) (v : UserRec) :
    (renewUpdate now uid v).id = v.id := by
  unfold renewUpdate; split <;> rfl

/-- The renewal row update keeps key and subscription id in place. -/
theorem renewUpdate_proj (now : Int) (uid : Nat) (v : UserRec) :
    subProj (renewUpdate now uid v) = subProj v := by
  unfold renewUpdate subProj; split <;> rfl

/-- The deletion row update keeps every primary key in place. -/
theorem deleteUpdate_id (uid : Nat) (v : UserRec) :
    (deleteUpdate uid v).id = v.id := by
  unfold deleteUpdate; split <;> rfl

/-- A successful per-user renewal returns true and stores the requested
expiration for that user, leaving every id and subscription id in place. -/
theorem renewSubscriptionForUser_success (env : SubEnv)
    (users : List UserRec) (now : Int) (uid : Nat) (u : UserRec)
    (sid : String) (hu : lookupUser users uid = some u)
    (hs : u.subscriptionId = some sid) (htk : env.tokenOk uid = true)
    (hrn : env.renewOk uid = true) :
    (renewSubscriptionForUser env users now uid).2 = true ∧
    lookupUser (renewSubscriptionForUser env users now uid).1 uid =
      some { u with expiresAt := some (now + (renewMinutes : Int) * 60) } := by
  have heq : renewSubscriptionForUser env users now uid =
      (users.map (renewUpdate now uid), true) := by
    simp [renewSubscriptionForUser, hu, hs, htk, hrn]
  have hu' : users.find? (fun v => v.id == uid) = some u := hu
  have hid : (u.id == uid) = true := by
    have hp := List.find?_some hu'
    simpa using hp
  have hmap := lookupUser_map (renewUpdate now uid) (renewUpdate_id now uid)
    users uid
  refine ⟨by rw [heq], ?_⟩
  rw [heq]
  simp [hmap, hu, renewUpdate, hid]

/-- The per-user renewal never changes any primary key or stored
subscription id. -/
theorem renew_preserves_proj (env : SubEnv) (users : List UserRec)
    (now : Int) (uid : Nat) :
    ((renewSubscriptionForUser env users now uid).1).map subProj =
      users.map subProj := by
  unfold renewSubscriptionForUser
  split
  · rfl
  · split
    · rfl
    · split
      · split
        · exact map_proj_of_pointwise _ _ (renewUpdate_proj now uid) users
        · rfl
      · rfl

/-- The sweep processes every selected user: its success and failure
counters always sum to the number of selected users. -/
theorem sweep_counts (env : SubEnv) (now : Int) (sel : List UserRec) :
    ∀ acc : List UserRec × Nat × Nat,
      (sel.foldl (sweepStep env now) acc).2.1 +
        (sel.foldl (sweepStep env now) acc).2.2 =
      acc.2.1 + acc.2.2 + sel.length := by
  induction sel with
  | nil => intro acc; simp
  | cons u l ih =>
    intro acc
    rw [List.foldl_cons, ih]
    rcases hr : renewSubscriptionForUser env acc.1 now u.id with ⟨st, ok⟩
    cases ok <;> simp [sweepStep, hr] <;> omega

/-- The sweep never changes any primary key or stored subscription id. -/
theorem sweep_preserves_proj (env : SubEnv) (now : Int)
    (sel : List UserRec) :
    ∀ acc : List UserRec × Nat × Nat,
      ((sel.foldl (sweepStep env now) acc).1).map subProj =
        (acc.1).map subProj := by
  induction sel with
  | nil => intro acc; rfl
  | cons u l ih =>
    intro acc
    rw [List.foldl_cons, ih]
    rcases hr : renewSubscriptionForUser env acc.1 now u.id with ⟨st, ok⟩
    have hpres := renew_preserves_proj env acc.1 now u.id
    rw [hr] at hpres
    cases ok <;> simp [sweepStep, hr] <;> exact hpres

/-- C7: a user holding a subscription whose expiration is inside the
24-hour horizon is selected by the sweep; a successful renewal stores the
requested expiration of now plus 4230 minutes for that user while keeping the
same subscription id (ids are never created or changed by the sweep); and the
sweep processes all selected users, so one failure never halts it. -/
theorem C7_renewal_sweep :
    (∀ (users : List UserRec) (now : Int) (u : UserRec) (sid : String)
        (e : Int),
      u ∈ users → u.subscriptionId = some sid → u.expiresAt = some e →
      e < now + 86400 → u ∈ sweepSelect users now) ∧
    (∀ (env : SubEnv) (users : List UserRec) (now : Int) (uid : Nat)
        (u : UserRec) (sid : String),
      lookupUser users uid = some u → u.subscriptionId = some sid →
      env.tokenOk uid = true → env.renewOk uid = true →
      (renewSubscriptionForUser env users now uid).2 = true ∧
      lookupUser (renewSubscriptionForUser env users now uid).1 uid =
        some { u with
          expiresAt := some (now + (renewMinutes : Int) * 60) } ∧
      ({ u with expiresAt := some (now + (renewMinutes : Int) * 60)
        } : UserRec).subscriptionId = some sid) ∧
    (∀ (env : SubEnv) (users : List UserRec) (now : Int),
      (renewExpiringSubscriptions env users now).2.1 +
        (renewExpiringSubscriptions env users now).2.2 =
      (sweepSelect users now).length) ∧
    (∀ (env : SubEnv) (users : List UserRec) (now : Int),
      ((renewExpiringSubscriptions env users now).1).map subProj =
        users.map subProj) := by
  refine ⟨?_, ?_, ?_, ?_⟩
  · intro users now u sid e hmem hsid hexp hlt
    simp only [sweepSelect, List.mem_filter]
    refine ⟨hmem, ?_⟩
    simp [hsid, hexp, hlt]
  · intro env users now uid u sid hu hs htk hrn
    obtain ⟨h1, h2⟩ :=
      renewSubscriptionForUser_success env users now uid u sid hu hs htk hrn
    exact ⟨h1, h2, hs⟩
  · intro env users now
    have h := sweep_counts env now (sweepSelect users now) (users, 0, 0)
    simpa [renewExpiringSubscriptions] using h
  · intro env users now
    have h := sweep_preserves_proj env now (sweepSelect users now)
      (users, 0, 0)
    simpa [renewExpiringSubscriptions] using h

/-- Witness for C7: the closed one-user table with an expiring subscription
is renewed in place. -/
theorem C7_renewal_sweep_witness :
    (renewSubscriptionForUser wSubEnv [wUser] 0 7).2 = true ∧
    lookupUser (renewSubscriptionForUser wSubEnv [wUser] 0 7).1 7 =
      some { wUser with
        expiresAt := some (0 + (renewMinutes : Int) * 60) } ∧
    ({ wUser with expiresAt := some (0 + (renewMinutes : Int) * 60)
      } : UserRec).subscriptionId = some "sub7" :=
  C7_renewal_sweep.2.1 wSubEnv [wUser] 0 7 wUser "sub7"
    (by decide) rfl rfl rfl

/-- C10: with the user present, a subscription stored and a token available,
a failed upstream deletion returns false and leaves the user table exactly as
it was; a successful upstream deletion returns true and clears both the
stored subscription id and expiration of that user. -/
theorem C10_delete_clears_only_on_success (env : SubEnv)
    (users : List UserRec) (uid : Nat) (u : UserRec) (sid : String)
    (hu : lookupUser users uid = some u) (hs : u.subscriptionId = some sid)
    (htk : env.tokenOk uid = true) :
    (env.deleteOk sid = false →
      deleteSubscriptionForUser env users uid = (users, false)) ∧
    (env.deleteOk sid = true →
      (deleteSubscriptionForUser env users uid).2 = true ∧
      lookupUser (deleteSubscriptionForUser env users uid).1 uid =
        some { u with subscriptionId := none, expiresAt := none }) := by
  constructor
  · intro hdel
    simp [deleteSubscriptionForUser, hu, hs, htk, hdel]
  · intro hdel
    have heq : deleteSubscriptionForUser env users uid =
        (users.map (deleteUpdate uid), true) := by
      simp [deleteSubscriptionForUser, hu, hs, htk, hdel]
    have hu' : users.find? (fun v => v.id == uid) = some u := hu
    have hid : (u.id == uid) = true := by
      have hp := List.find?_some hu'
      simpa using hp
    have hmap := lookupUser_map (deleteUpdate uid) (deleteUpdate_id uid)
      users uid
    refine ⟨by rw [heq], ?_⟩
    rw [heq]
    simp [hmap, hu, deleteUpdate, hid]

/-- Witness for C10: on the closed one-user table the failing gateway leaves
the row intact and the succeeding gateway clears it. -/
theorem C10_delete_clears_only_on_success_witness :
    deleteSubscriptionForUser wSubEnvDeleteFail [wUser] 7 =
      ([wUser], false) ∧
    ((deleteSubscriptionForUser wSubEnv [wUser] 7).2 = true ∧
      lookupUser (deleteSubscriptionForUser wSubEnv [wUser] 7).1 7 =
        some { wUser with subscriptionId := none, expiresAt := none }) :=
  ⟨(C10_delete_clears_only_on_success wSubEnvDeleteFail [wUser] 7 wUser
      "sub7" (by decide) rfl rfl).1 rfl,
   (C10_delete_clears_only_on_success wSubEnv [wUser] 7 wUser
      "sub7" (by decide) rfl rfl).2 rfl⟩

end OutlookAutomater
